import Mathlib

/-!
# Verification of the B3 trace-propagation module (`b3/__init__.py`)

Shallow embedding of the Flask-B3 core: the five B3 header fields stored on
the Flask application-context object `g`, the `values`, `start_span`,
`end_span`, `_start_subspan`, `_end_subspan` and `_generate_identifier`
operations, and the header dictionaries flowing in and out of them.

Modelling conventions:
* A Python header dictionary is an association list `Headers`.  A stored
  value may be Python `None`, so entries carry `Option String` values:
  `some s` is the string `s`, `none` is Python `None`.  `hget` is `dict.get`
  restricted to key presence (outer `Option` = key present), `getFlat` is
  the plain `dict.get` that conflates a missing key with a `None` value,
  and `hset` is `dict.__setitem__` / one entry of `dict.update`.
* The Flask object `g` is a `GStore`: the five B3 attributes (each possibly
  unset, i.e. `none`) plus the optional `subspan` attribute.  The ambient
  application context is `Option GStore`: `none` means no application
  context is active, in which case any attribute access on `g` raises
  `RuntimeError` (the behaviour of `flask.g`, which the source acknowledges
  by wrapping its reads of `g` in `try/except RuntimeError`).  Functions
  that perform an unguarded write to `g` therefore return `Except String`.
* `os.urandom(8)` is modelled by passing the drawn bytes (a `List Nat`,
  each byte `< 256`) or the resulting fresh identifier as an explicit
  argument.
* Python truthiness on optional strings (`None` and `""` are falsy) is
  `truthyOpt`; `x or y` on them is `pyOr`.
-/

namespace B3

/-- A Python dictionary value: a string or Python `None`. -/
abbrev HVal := Option String

/-- A Python dictionary with string keys, as an association list. -/
abbrev Headers := List (String × HVal)

/-- Key lookup: `some v` when the key is present with value `v`
(where `v` may itself model Python `None`), `none` when absent. -/
def hget : Headers → String → Option HVal
  | [], _ => none
  | p :: rest, k => if p.1 = k then some p.2 else hget rest k

/-- `dict.get`: a missing key and a key stored as `None` both give `none`. -/
def getFlat (h : Headers) (k : String) : Option String :=
  (hget h k).bind id

/-- `dict[k] = v`: replace the value at `k` if present, else append. -/
def hset (h : Headers) (k : String) (v : HVal) : Headers :=
  match h with
  | [] => [(k, v)]
  | p :: rest => if p.1 = k then (k, v) :: rest else p :: hset rest k v

def b3_trace_id : String := "X-B3-TraceId"

def b3_parent_span_id : String := "X-B3-ParentSpanId"

def b3_span_id : String := "X-B3-SpanId"

def b3_sampled : String := "X-B3-Sampled"

def b3_flags : String := "X-B3-Flags"

def b3_headers : List String :=
  [b3_trace_id, b3_parent_span_id, b3_span_id, b3_sampled, b3_flags]

/-- The five B3 fields of a span or subspan, as stored on `g` (attribute
unset / value `None` is `none`) or held in the `g.subspan` dictionary. -/
structure Span where
  traceId : Option String
  parentSpanId : Option String
  spanId : Option String
  sampled : Option String
  flags : Option String
  deriving Repr, DecidableEq

/-- All five fields absent (the dict of empty values `values()` builds
outside an application context, and the state of `g` before `start_span`). -/
def emptySpan : Span :=
  { traceId := none, parentSpanId := none, spanId := none
    sampled := none, flags := none }

/-- The Flask `g` object: the five B3 attributes set by `start_span`, plus
the single-slot `subspan` attribute (`none` when not set). -/
structure GStore where
  span : Span
  subspan : Option Span
  deriving Repr, DecidableEq

/-- A freshly pushed application context: no attribute set on `g` yet. -/
def freshG : GStore := { span := emptySpan, subspan := none }

/-- Python truthiness of an optional string: `None` and `""` are falsy. -/
def truthyOpt : Option String → Bool
  | none => false
  | some s => !s.isEmpty

/-- Python `a or b` on an optional string `a` and a string `b`. -/
def pyOr (a : Option String) (b : String) : String :=
  match a with
  | none => b
  | some s => if s.isEmpty then b else s

/-- `values()`: the subspan's fields when `g.subspan` is set, else the span
attributes on `g`; outside an application context (`none`), the
`RuntimeError` is caught and a dict of all-absent values is returned. -/
def values : Option GStore → Span
  | none => emptySpan
  | some g =>
    match g.subspan with
    | some sub => sub
    | none => g.span

/-- The `headers = request_headers if request_headers else request.headers`
resolution in `start_span`, with the `RuntimeError` from touching
`request.headers` outside a request context caught and replaced by `{}`:
`request_headers` is `none` for the Python default `None`, and a supplied
dictionary is falsy exactly when empty; `ambient` is `request.headers`
(`none` when no request context is active). -/
def resolve_request_headers (request_headers : Option Headers)
    (ambient : Option Headers) : Headers :=
  match request_headers with
  | none => ambient.getD []
  | some h => if h.isEmpty then ambient.getD [] else h

/-- The attribute writes of `start_span` on `g`, given the resolved inbound
`headers`, the identifier `fresh` that `_generate_identifier()` would
return, and the module-level `debug` flag. -/
def start_span_core (headers : Headers) (fresh : String) (debug : Bool)
    (g : GStore) : GStore :=
  let trace_id := getFlat headers b3_trace_id
  let parent_span_id := getFlat headers b3_parent_span_id
  let span_id := getFlat headers b3_span_id
  let sampled := getFlat headers b3_sampled
  let flags := getFlat headers b3_flags
  let tid := pyOr trace_id fresh
  { g with
    span :=
      { traceId := some tid
        parentSpanId := parent_span_id
        spanId := some (pyOr span_id tid)
        sampled := sampled
        flags := if debug then some "1" else flags } }

/-- `start_span(request_headers)`: header resolution followed by the
attribute writes. -/
def start_span (request_headers : Option Headers) (ambient : Option Headers)
    (fresh : String) (debug : Bool) (g : GStore) : GStore :=
  start_span_core (resolve_request_headers request_headers ambient) fresh debug g

/-- One nibble to its lowercase hex character: decimal digits start at
codepoint 48 (`'0'`), letters at codepoint 97 (`'a'`, i.e. 87 + 10);
arguments outside a nibble's range cannot arise from a byte. -/
def hexDigit (n : Nat) : Char :=
  if n < 10 then Char.ofNat (48 + n)
  else if n < 16 then Char.ofNat (87 + n)
  else '0'

/-- One byte to its two hex characters, high nibble first. -/
def hexByte (b : Nat) : List Char := [hexDigit (b / 16), hexDigit (b % 16)]

/-- `binascii.hexlify` over a byte sequence, as a character list. -/
def hexlify : List Nat → List Char
  | [] => []
  | b :: rest => hexByte b ++ hexlify rest

/-- `_generate_identifier()`: hex-encode the 8 bytes drawn from
`os.urandom` (the random draw is the explicit `randomBytes` argument). -/
def _generate_identifier (randomBytes : List Nat) : String :=
  String.mk (hexlify randomBytes)

/-- A character of the class `[0-9a-f]`. -/
def isHexCharb (c : Char) : Bool :=
  (decide ('0' ≤ c) && decide (c ≤ '9')) || (decide ('a' ≤ c) && decide (c ≤ 'f'))

/-- The regular expression `[0-9a-f]{16}` as a whole-string match. -/
def matchesHexId16 (s : String) : Bool :=
  s.toList.length == 16 && s.toList.all isHexCharb

/-- The `g.subspan` dictionary built by `_start_subspan` from the current
`values()` result `b3` and the freshly generated identifier. -/
def mkSubspan (b3 : Span) (fresh : String) : Span :=
  { traceId := b3.traceId
    spanId := some fresh
    parentSpanId := b3.spanId
    sampled := b3.sampled
    flags := b3.flags }

/-- The body of `_start_subspan` inside an application context: store the
subspan on `g` and compose the outbound headers from a copy of the
caller-supplied dictionary (`dict(headers or {})`), unconditionally setting
the three identifier headers and setting sampled/flags only when truthy. -/
def _start_subspan_core (headers : Option Headers) (fresh : String)
    (g : GStore) : GStore × Headers :=
  let b3 := values (some g)
  let sub := mkSubspan b3 fresh
  let g' := { g with subspan := some sub }
  let result := headers.getD []
  let result := hset result b3_trace_id sub.traceId
  let result := hset result b3_span_id sub.spanId
  let result := hset result b3_parent_span_id sub.parentSpanId
  let result := if truthyOpt sub.sampled then hset result b3_sampled sub.sampled else result
  let result := if truthyOpt sub.flags then hset result b3_flags sub.flags else result
  (g', result)

/-- The `RuntimeError` message `flask.g` raises outside an application
context. -/
def pyRuntimeError : String := "RuntimeError: Working outside of application context."

/-- `_start_subspan(headers)`: the initial `values()` call never raises,
but the assignment `g.subspan = ...` is not guarded by any
`try/except RuntimeError`, so outside an application context the
`RuntimeError` raised by `flask.g` propagates to the caller. -/
def _start_subspan (headers : Option Headers) (fresh : String) :
    Option GStore → Except String (Option GStore × Headers)
  | none => Except.error pyRuntimeError
  | some g =>
    let (g', result) := _start_subspan_core headers fresh g
    Except.ok (some g', result)

/-- `_end_subspan()`: pop the `subspan` attribute when it is set; outside an
application context the `RuntimeError` is caught and nothing happens. -/
def _end_subspan : Option GStore → Option GStore
  | none => none
  | some g =>
    match g.subspan with
    | some _ => some { g with subspan := none }
    | none => some g

/-- `end_span(response)`: close any open subspan, log, and return the
`response` argument as passed. -/
def end_span {α : Type} (response : α) (st : Option GStore) :
    Option GStore × α :=
  (_end_subspan st, response)

/-! ## Helper lemmas about the dictionary model -/

theorem hget_hset (h : Headers) (k k' : String) (v : HVal) :
    hget (hset h k v) k' = if k' = k then some v else hget h k' := by
  induction h with
  | nil =>
    by_cases hk : k' = k
    · simp [hset, hget, hk]
    · have hk2 : ¬ k = k' := fun hc => hk hc.symm
      simp [hset, hget, hk, hk2]
  | cons p rest ih =>
    by_cases hp : p.1 = k
    · by_cases hk : k' = k
      · simp [hset, hp, hget, hk]
      · have hk2 : ¬ k = k' := fun hc => hk hc.symm
        simp [hset, hp, hget, hk, hk2]
    · by_cases hpk : p.1 = k'
      · have hk : ¬ k' = k := fun hc => hp (hpk.trans hc)
        simp [hset, hp, hget, hpk, hk]
      · simp [hset, hp, hget, hpk, ih]

/-! ## Helper lemmas about identifier generation -/

theorem hexlify_length (bs : List Nat) : (hexlify bs).length = 2 * bs.length := by
  induction bs with
  | nil => simp [hexlify]
  | cons b rest ih =>
    simp [hexlify, hexByte, ih]
    ring

theorem isHexCharb_hexDigit (n : Nat) : isHexCharb (hexDigit n) = true := by
  rcases Nat.lt_or_ge n 16 with h | h
  · interval_cases n <;> decide
  · have h1 : ¬ n < 10 := by omega
    have h2 : ¬ n < 16 := by omega
    rw [hexDigit, if_neg h1, if_neg h2]
    decide

theorem hexlify_all_hex (bs : List Nat) : ∀ c ∈ hexlify bs, isHexCharb c = true := by
  induction bs with
  | nil => simp [hexlify]
  | cons b rest ih =>
    intro c hc
    simp only [hexlify, hexByte, List.cons_append, List.nil_append, List.mem_cons] at hc
    rcases hc with rfl | rfl | hc
    · exact isHexCharb_hexDigit _
    · exact isHexCharb_hexDigit _
    · exact ih c hc

theorem generate_identifier_matches (bs : List Nat) (h8 : bs.length = 8) :
    matchesHexId16 (_generate_identifier bs) = true := by
  have hlen : (hexlify bs).length = 16 := by
    rw [hexlify_length, h8]
  have htl : (_generate_identifier bs).toList = hexlify bs := rfl
  simp only [matchesHexId16, htl, Bool.and_eq_true, beq_iff_eq, List.all_eq_true]
  exact ⟨hlen, fun c hc => hexlify_all_hex bs c hc⟩

theorem generate_identifier_ne_empty (bs : List Nat) (h8 : bs.length = 8) :
    _generate_identifier bs ≠ "" := by
  intro hc
  have : (hexlify bs).length = 16 := by
    rw [hexlify_length, h8]
  have hnil : hexlify bs = [] := by
    have := congrArg String.toList hc
    simpa [_generate_identifier] using this
  rw [hnil] at this
  simp at this

/-! ## Helper lemmas about subspan header composition -/

theorem subspan_result_ids (headers : Option Headers) (fresh : String) (g : GStore) :
    hget (_start_subspan_core headers fresh g).2 b3_trace_id
      = some (values (some g)).traceId
    ∧ hget (_start_subspan_core headers fresh g).2 b3_span_id = some (some fresh)
    ∧ hget (_start_subspan_core headers fresh g).2 b3_parent_span_id
      = some (values (some g)).spanId
    ∧ (_start_subspan_core headers fresh g).1
      = { g with subspan := some (mkSubspan (values (some g)) fresh) } := by
  refine ⟨?_, ?_, ?_, rfl⟩ <;>
    · simp only [_start_subspan_core]
      split <;> split <;>
        simp_all [hget_hset, mkSubspan,
          b3_trace_id, b3_span_id, b3_parent_span_id, b3_sampled, b3_flags]

theorem subspan_result_sampled (headers : Option Headers) (fresh : String) (g : GStore) :
    hget (_start_subspan_core headers fresh g).2 b3_sampled
      = if truthyOpt (values (some g)).sampled
        then some (values (some g)).sampled
        else hget (headers.getD []) b3_sampled := by
  simp only [_start_subspan_core]
  split <;> split <;>
    simp_all [hget_hset, mkSubspan,
      b3_trace_id, b3_span_id, b3_parent_span_id, b3_sampled, b3_flags]

theorem subspan_result_flags (headers : Option Headers) (fresh : String) (g : GStore) :
    hget (_start_subspan_core headers fresh g).2 b3_flags
      = if truthyOpt (values (some g)).flags
        then some (values (some g)).flags
        else hget (headers.getD []) b3_flags := by
  simp only [_start_subspan_core]
  split <;> split <;>
    simp_all [hget_hset, mkSubspan,
      b3_trace_id, b3_span_id, b3_parent_span_id, b3_sampled, b3_flags]

theorem subspan_result_frame (headers : Option Headers) (fresh : String) (g : GStore)
    (k : String) (hk : k ∉ b3_headers) :
    hget (_start_subspan_core headers fresh g).2 k = hget (headers.getD []) k := by
  simp only [b3_headers, List.mem_cons, List.not_mem_nil, or_false, not_or] at hk
  obtain ⟨h1, h2, h3, h4, h5⟩ := hk
  simp only [_start_subspan_core]
  split <;> split <;> simp_all [hget_hset, h1, h2, h3, h4, h5]

/-! ## Claims -/

/-- C1: for a request whose effective values carry `traceId = T` and
`spanId = S`, `_start_subspan` builds the subspan with `traceId = T`,
`parentSpanId = S`, a freshly generated span id (different from `S` whenever
the random draw differs from `S`) matching `[0-9a-f]{16}`, and
sampled/flags copied from the effective values; the returned outbound
headers carry exactly these trace-id, span-id and parent-span-id values. -/
theorem C1_subspan_construction
    (g : GStore) (hdrs : Option Headers) (bytes : List Nat) (T S : String)
    (hT : (values (some g)).traceId = some T)
    (hS : (values (some g)).spanId = some S)
    (h8 : bytes.length = 8)
    (hne : _generate_identifier bytes ≠ S) :
    (_start_subspan_core hdrs (_generate_identifier bytes) g).1.subspan
      = some { traceId := some T, parentSpanId := some S
               spanId := some (_generate_identifier bytes)
               sampled := (values (some g)).sampled
               flags := (values (some g)).flags }
    ∧ _generate_identifier bytes ≠ S
    ∧ matchesHexId16 (_generate_identifier bytes) = true
    ∧ hget (_start_subspan_core hdrs (_generate_identifier bytes) g).2 b3_trace_id
        = some (some T)
    ∧ hget (_start_subspan_core hdrs (_generate_identifier bytes) g).2 b3_span_id
        = some (some (_generate_identifier bytes))
    ∧ hget (_start_subspan_core hdrs (_generate_identifier bytes) g).2 b3_parent_span_id
        = some (some S) := by
  obtain ⟨h1, h2, h3, h4⟩ := subspan_result_ids hdrs (_generate_identifier bytes) g
  refine ⟨?_, hne, generate_identifier_matches bytes h8, ?_, h2, ?_⟩
  · rw [h4]
    simp [mkSubspan, hT, hS]
  · rw [h1, hT]
  · rw [h3, hS]

/-- Witness for C1 at a concrete state and random draw. -/
theorem C1_subspan_construction_witness :
    (values (some ⟨⟨some "abc123", none, some "s1", some "1", some "0"⟩, none⟩)).traceId
      = some "abc123"
    ∧ (values (some ⟨⟨some "abc123", none, some "s1", some "1", some "0"⟩, none⟩)).spanId
      = some "s1"
    ∧ ([0, 1, 2, 3, 4, 5, 6, 7] : List Nat).length = 8
    ∧ _generate_identifier [0, 1, 2, 3, 4, 5, 6, 7] ≠ "s1"
    ∧ hget (_start_subspan_core none (_generate_identifier [0, 1, 2, 3, 4, 5, 6, 7])
        ⟨⟨some "abc123", none, some "s1", some "1", some "0"⟩, none⟩).2 b3_parent_span_id
        = some (some "s1") :=
  ⟨rfl, rfl, rfl, by decide,
    (C1_subspan_construction
      ⟨⟨some "abc123", none, some "s1", some "1", some "0"⟩, none⟩
      none [0, 1, 2, 3, 4, 5, 6, 7] "abc123" "s1" rfl rfl rfl (by decide)).2.2.2.2.2⟩

/-- C8: `_end_subspan` with no active subspan is a silent no-op: inside an
application context it leaves the stored state unchanged, and outside any
application context the `RuntimeError` is caught and nothing happens. -/
theorem C8_end_subspan_noop :
    (∀ g : GStore, g.subspan = none → _end_subspan (some g) = some g)
    ∧ _end_subspan none = none := by
  refine ⟨?_, rfl⟩
  intro g hg
  simp [_end_subspan, hg]

/-- Witness for C8 at a concrete state with no subspan. -/
theorem C8_end_subspan_noop_witness :
    (⟨emptySpan, none⟩ : GStore).subspan = none
    ∧ _end_subspan (some ⟨emptySpan, none⟩) = some ⟨emptySpan, none⟩ :=
  ⟨rfl, C8_end_subspan_noop.1 ⟨emptySpan, none⟩ rfl⟩

/-- C9: `end_span` closes any still-open subspan (afterwards no subspan is
active and `values()` returns the enclosing span's fields) and returns its
response argument unchanged, whatever value was passed. -/
theorem C9_end_span_closes_subspan (α : Type) (resp : α) (g : GStore) :
    end_span resp (some g) = (some { span := g.span, subspan := none }, resp)
    ∧ values (end_span resp (some g)).1 = g.span := by
  obtain ⟨s, sub⟩ := g
  cases sub <;> simp [end_span, _end_subspan, values]

/-- C10: a supplied-but-falsy `request_headers` argument (`None`, or an
explicitly supplied empty mapping) is ignored by `start_span`'s header
resolution, which falls back to `request.headers` (or to an empty mapping
when no request context is active); a non-empty supplied mapping is
honoured. -/
theorem C10_falsy_request_headers (amb : Option Headers) (h : Headers) :
    resolve_request_headers (some []) amb = amb.getD []
    ∧ resolve_request_headers none amb = amb.getD []
    ∧ (h ≠ [] → resolve_request_headers (some h) amb = h) := by
  refine ⟨rfl, rfl, ?_⟩
  intro hne
  match h with
  | [] => exact absurd rfl hne
  | p :: rest => rfl

/-- Witness for C10: a concrete non-empty supplied mapping is honoured,
while the empty mapping falls back to the ambient headers. -/
theorem C10_falsy_request_headers_witness :
    ([("k", some "v")] : Headers) ≠ []
    ∧ resolve_request_headers (some [("k", some "v")]) (some [("a", some "b")])
        = [("k", some "v")] :=
  ⟨by decide,
    (C10_falsy_request_headers (some [("a", some "b")]) [("k", some "v")]).2.2 (by decide)⟩

/-- C3: `start_span` resolves the identifiers as: `traceId` is the inbound
trace-id header when present with a truthy value (the source's
`trace_id or _generate_identifier()` — an empty inbound value counts as
absent), else the freshly generated identifier; `parentSpanId` is exactly
the inbound parent-span-id header, left absent when not present;
`spanId` is the inbound span-id header when truthy, else the resolved
trace id. -/
theorem C3_identifier_resolution (h : Headers) (fresh : String) (debug : Bool)
    (g : GStore) :
    (∀ t, getFlat h b3_trace_id = some t → t ≠ "" →
      (start_span_core h fresh debug g).span.traceId = some t)
    ∧ ((getFlat h b3_trace_id = none ∨ getFlat h b3_trace_id = some "") →
      (start_span_core h fresh debug g).span.traceId = some fresh)
    ∧ (start_span_core h fresh debug g).span.parentSpanId
      = getFlat h b3_parent_span_id
    ∧ (∀ u, getFlat h b3_span_id = some u → u ≠ "" →
      (start_span_core h fresh debug g).span.spanId = some u)
    ∧ ((getFlat h b3_span_id = none ∨ getFlat h b3_span_id = some "") →
      (start_span_core h fresh debug g).span.spanId
        = (start_span_core h fresh debug g).span.traceId) := by
  refine ⟨?_, ?_, rfl, ?_, ?_⟩
  · intro t ht hne
    simp [start_span_core, ht, pyOr, String.isEmpty_iff, hne]
  · rintro (ht | ht) <;>
      simp [start_span_core, ht, pyOr, show ("" : String).isEmpty = true from rfl]
  · intro u hu hne
    simp [start_span_core, hu, pyOr, String.isEmpty_iff, hne]
  · rintro (hu | hu) <;>
      simp [start_span_core, hu, pyOr, show ("" : String).isEmpty = true from rfl]

/-- Witness for C3 at a concrete inbound mapping carrying a trace id. -/
theorem C3_identifier_resolution_witness :
    getFlat [(b3_trace_id, some "abc123")] b3_trace_id = some "abc123"
    ∧ ("abc123" : String) ≠ ""
    ∧ (start_span_core [(b3_trace_id, some "abc123")] "0001020304050607" false
        freshG).span.traceId = some "abc123" :=
  ⟨by decide, by decide,
    (C3_identifier_resolution [(b3_trace_id, some "abc123")] "0001020304050607"
      false freshG).1 "abc123" (by decide) (by decide)⟩

/-- C4: sampled is pass-through only — absent inbound means absent from
`values()` and omitted from the outbound headers composed by
`_start_subspan` (given caller headers that do not already carry it), and a
present inbound value is propagated unchanged (propagated outbound when
non-empty); flags is forced to `"1"` whenever the module-level `debug`
switch is on, otherwise passed through and omitted from outbound headers
when absent. -/
theorem C4_sampled_flags_policy (h H : Headers) (fresh fresh2 : String)
    (debug : Bool) (g : GStore)
    (hg : g.subspan = none)
    (hH1 : hget H b3_sampled = none)
    (hH2 : hget H b3_flags = none) :
    (getFlat h b3_sampled = none →
      (values (some (start_span_core h fresh debug g))).sampled = none
      ∧ hget (_start_subspan_core (some H) fresh2
          (start_span_core h fresh debug g)).2 b3_sampled = none)
    ∧ (∀ v, getFlat h b3_sampled = some v →
      (values (some (start_span_core h fresh debug g))).sampled = some v
      ∧ (v ≠ "" → hget (_start_subspan_core (some H) fresh2
          (start_span_core h fresh debug g)).2 b3_sampled = some (some v)))
    ∧ (debug = true →
      (values (some (start_span_core h fresh debug g))).flags = some "1"
      ∧ hget (_start_subspan_core (some H) fresh2
          (start_span_core h fresh debug g)).2 b3_flags = some (some "1"))
    ∧ (debug = false →
      (values (some (start_span_core h fresh debug g))).flags = getFlat h b3_flags
      ∧ (getFlat h b3_flags = none → hget (_start_subspan_core (some H) fresh2
          (start_span_core h fresh debug g)).2 b3_flags = none)) := by
  have hsampled : (values (some (start_span_core h fresh debug g))).sampled
      = getFlat h b3_sampled := by
    simp [start_span_core, values, hg]
  have hflags : (values (some (start_span_core h fresh debug g))).flags
      = (if debug then some "1" else getFlat h b3_flags) := by
    simp [start_span_core, values, hg]
  have hsub := subspan_result_sampled (some H) fresh2 (start_span_core h fresh debug g)
  have hfl := subspan_result_flags (some H) fresh2 (start_span_core h fresh debug g)
  rw [hsampled] at hsub
  rw [hflags] at hfl
  refine ⟨?_, ?_, ?_, ?_⟩
  · intro habs
    rw [habs] at hsub
    exact ⟨hsampled.trans habs, by simpa [truthyOpt, hH1] using hsub⟩
  · intro v hv
    rw [hv] at hsub
    refine ⟨hsampled.trans hv, ?_⟩
    intro hne
    have hie : v.isEmpty = false := by
      cases hb : v.isEmpty
      · rfl
      · exact absurd ((String.isEmpty_iff v).mp hb) hne
    simpa [truthyOpt, hie] using hsub
  · intro hdbg
    subst hdbg
    simp only [if_pos rfl] at hflags hfl
    refine ⟨hflags, ?_⟩
    simpa [truthyOpt, show ("1" : String).isEmpty = false from rfl] using hfl
  · intro hdbg
    subst hdbg
    simp at hflags hfl
    refine ⟨hflags, ?_⟩
    intro habs
    rw [habs] at hfl
    simpa [truthyOpt, hH2] using hfl

/-- Witness for C4: with nothing inbound and `debug` off, sampled and flags
are absent from the effective values and omitted from the outbound
headers. -/
theorem C4_sampled_flags_policy_witness :
    freshG.subspan = none
    ∧ hget ([] : Headers) b3_sampled = none
    ∧ hget ([] : Headers) b3_flags = none
    ∧ getFlat ([] : Headers) b3_sampled = none
    ∧ hget (_start_subspan_core (some []) "0001020304050607"
        (start_span_core [] "aaaabbbbccccdddd" false freshG)).2 b3_sampled = none :=
  ⟨rfl, rfl, rfl, rfl,
    ((C4_sampled_flags_policy [] [] "aaaabbbbccccdddd" "0001020304050607" false
      freshG rfl rfl rfl).1 rfl).2⟩

/-- C2 fails as stated: from a state where a subspan is already open,
`_start_subspan` replaces the single subspan slot, so `_end_subspan` drops
back to the main span rather than to the pre-call subspan. -/
theorem C2_roundtrip_counterexample :
    values (_end_subspan
      (_start_subspan_core none "0123456789abcdef"
        ⟨⟨some "aaaa", none, some "a1", none, none⟩,
         some ⟨some "aaaa", some "a1", some "b2", none, none⟩⟩).1)
      ≠ values (some
        ⟨⟨some "aaaa", none, some "a1", none, none⟩,
         some ⟨some "aaaa", some "a1", some "b2", none, none⟩⟩) := by
  decide

/-- C2 (amended): when a span has been started and no subspan is active,
`_start_subspan` followed by `_end_subspan` restores `values()` to exactly
the pre-subspan values, for all five fields. -/
theorem C2_subspan_roundtrip (g : GStore) (hdrs : Option Headers) (fresh : String)
    (hg : g.subspan = none) :
    values (_end_subspan (_start_subspan_core hdrs fresh g).1) = values (some g) := by
  obtain ⟨s, sub⟩ := g
  simp only at hg
  subst hg
  simp [_start_subspan_core, _end_subspan, values]

/-- Witness for C2 at a concrete span state with no open subspan. -/
theorem C2_subspan_roundtrip_witness :
    (⟨⟨some "abc123", none, some "s1", some "1", none⟩, none⟩ : GStore).subspan = none
    ∧ values (_end_subspan
        (_start_subspan_core none "0001020304050607"
          ⟨⟨some "abc123", none, some "s1", some "1", none⟩, none⟩).1)
      = values (some (⟨⟨some "abc123", none, some "s1", some "1", none⟩, none⟩ : GStore)) :=
  ⟨rfl,
    C2_subspan_roundtrip ⟨⟨some "abc123", none, some "s1", some "1", none⟩, none⟩
      none "0001020304050607" rfl⟩

/-- C5 fails as stated: an inbound mapping lacking a trace id may still
carry a parent-span-id header, which `start_span` copies through, so
`parentSpanId` is not absent. -/
theorem C5_root_span_counterexample :
    getFlat [(b3_parent_span_id, some "beef")] b3_trace_id = none
    ∧ (values (some (start_span_core [(b3_parent_span_id, some "beef")]
        (_generate_identifier [0, 1, 2, 3, 4, 5, 6, 7]) false freshG))).parentSpanId
      ≠ none := by
  decide

/-- C5 (amended): for every inbound mapping lacking a trace id, after
`start_span` the effective trace id is non-empty, is the hex encoding of
the 8 random bytes drawn, and matches `[0-9a-f]{16}`; `parentSpanId` is
absent provided the inbound mapping also lacks a parent-span-id header
(otherwise that header's value is copied through). -/
theorem C5_root_span (h : Headers) (bytes : List Nat) (g : GStore) (debug : Bool)
    (hg : g.subspan = none)
    (htid : getFlat h b3_trace_id = none)
    (hpar : getFlat h b3_parent_span_id = none)
    (h8 : bytes.length = 8) :
    (values (some (start_span_core h (_generate_identifier bytes) debug g))).traceId
      = some (_generate_identifier bytes)
    ∧ _generate_identifier bytes ≠ ""
    ∧ matchesHexId16 (_generate_identifier bytes) = true
    ∧ (values (some (start_span_core h (_generate_identifier bytes) debug g))).parentSpanId
      = none := by
  refine ⟨?_, generate_identifier_ne_empty bytes h8, generate_identifier_matches bytes h8, ?_⟩ <;>
    simp [start_span_core, values, hg, htid, hpar, pyOr]

/-- Witness for C5 at a concrete inbound mapping with no trace id. -/
theorem C5_root_span_witness :
    (freshG.subspan = none)
    ∧ getFlat [(b3_sampled, some "1")] b3_trace_id = none
    ∧ getFlat [(b3_sampled, some "1")] b3_parent_span_id = none
    ∧ ([0, 1, 2, 3, 4, 5, 6, 7] : List Nat).length = 8
    ∧ matchesHexId16 (_generate_identifier [0, 1, 2, 3, 4, 5, 6, 7]) = true :=
  ⟨rfl, by decide, by decide, rfl,
    (C5_root_span [(b3_sampled, some "1")] [0, 1, 2, 3, 4, 5, 6, 7] freshG false
      rfl (by decide) (by decide) rfl).2.2.1⟩

/-- C6 fails as stated: `values()` and `_end_subspan` catch the
`RuntimeError` raised by `flask.g` outside an application context, but
`_start_subspan`'s write `g.subspan = ...` is unguarded, so with no
application context it raises. -/
theorem C6_no_context_counterexample :
    _start_subspan none "0001020304050607" none = Except.error pyRuntimeError := rfl

/-- C6 (amended): with no prior `start_span`, `values()` returns a mapping
with all five keys carrying absent values and `_end_subspan` is a no-op,
even with no application context; `_start_subspan` raises `RuntimeError`
without an application context, but given one (and no prior `start_span`)
it never raises and still creates a subspan with absent inherited fields. -/
theorem C6_no_context_tolerance (hdrs : Option Headers) (fresh : String) :
    values none = emptySpan
    ∧ _end_subspan none = none
    ∧ (∃ r, _start_subspan hdrs fresh (some freshG)
        = Except.ok (some ⟨emptySpan, some ⟨none, none, some fresh, none, none⟩⟩, r)) :=
  ⟨rfl, rfl, ⟨(_start_subspan_core hdrs fresh freshG).2, rfl⟩⟩

/-- C7: the outbound headers composed by `_start_subspan` start from a copy
of the caller-supplied mapping `H` (`dict(headers or {})` — `H` itself is a
value the call never mutates): every entry of `H` whose key is not one of
the five B3 headers appears unchanged in the returned mapping, and the
three B3 identifier entries are present alongside them. -/
theorem C7_caller_headers_frame (H : Headers) (g : GStore) (fresh : String)
    (k : String) (hk : k ∉ b3_headers) :
    hget (_start_subspan_core (some H) fresh g).2 k = hget H k
    ∧ (hget (_start_subspan_core (some H) fresh g).2 b3_trace_id).isSome = true
    ∧ (hget (_start_subspan_core (some H) fresh g).2 b3_span_id).isSome = true
    ∧ (hget (_start_subspan_core (some H) fresh g).2 b3_parent_span_id).isSome = true := by
  obtain ⟨h1, h2, h3, _⟩ := subspan_result_ids (some H) fresh g
  refine ⟨?_, ?_, ?_, ?_⟩
  · simpa using subspan_result_frame (some H) fresh g k hk
  · rw [h1]
    rfl
  · rw [h2]
    rfl
  · rw [h3]
    rfl

/-- Witness for C7: a non-B3 entry of the caller-supplied mapping survives
unchanged. -/
theorem C7_caller_headers_frame_witness :
    ("X" ∉ b3_headers)
    ∧ hget (_start_subspan_core (some [("X", some "y")]) "0001020304050607" freshG).2 "X"
      = hget [("X", some "y")] "X" :=
  ⟨by decide,
    (C7_caller_headers_frame [("X", some "y")] freshG "0001020304050607" "X" (by decide)).1⟩

end B3
